import Mathlib

/-!
Verification of the ShipTrack shipment-tracking application core:
the shipment workflow state machine, its role gates, and the
derived-value calculations of the storage layer.

The definitions below are a shallow embedding of the TypeScript source:
machine numbers are modelled as `Nat`/`Int`, SQL `decimal` values as `ℚ`,
optional/nullable payload fields as `Option`, and each storage operation
as a pure function from its inputs (and, where relevant, the existing row)
to the row it writes.
-/

namespace ShipTrack

/-- Shipment workflow status, from the `shipment_status` enum in the schema. -/
inductive ShipmentStatus
  | CREATED
  | IMPORTING_DETAILS_DONE
  | CUSTOMS_IN_PROGRESS
  | CUSTOMS_RECEIVED
deriving DecidableEq, Repr, Fintype

/-- User role, from the `user_role` enum in the schema. -/
inductive Role
  | ADMIN
  | OPERATOR
  | VIEWER
deriving DecidableEq, Repr, Fintype

/-- View of the authenticated user exposed by the client `useAuth` hook.
`none` models an unauthenticated session (`user` undefined). -/
structure AuthView where
  isAdmin : Bool
  isOperator : Bool
  isViewer : Bool
  canEdit : Bool
deriving DecidableEq, Repr

/-- The `useAuth` hook (client/src/hooks/useAuth.ts): derives the role
predicates from the (possibly absent) authenticated user. -/
def useAuth (user : Option Role) : AuthView :=
  { isAdmin := user = some Role.ADMIN
    isOperator := user = some Role.OPERATOR
    isViewer := user = some Role.VIEWER
    canEdit := user = some Role.ADMIN ∨ user = some Role.OPERATOR }

/-- The `canAdvanceStatus` check of the shipment view page
(client/src/pages/shipments/view.tsx, lines 108-113). -/
def canAdvanceStatus (status : ShipmentStatus) (auth : AuthView) : Bool :=
  if !auth.canEdit then false
  else if status = ShipmentStatus.CUSTOMS_RECEIVED then false
  else if status = ShipmentStatus.CUSTOMS_IN_PROGRESS ∧ !auth.isAdmin then false
  else true

/-- The `getNextStatus` successor table of the shipment view page
(client/src/pages/shipments/view.tsx, lines 115-126). -/
def getNextStatus (status : ShipmentStatus) : Option ShipmentStatus :=
  match status with
  | ShipmentStatus.CREATED => some ShipmentStatus.IMPORTING_DETAILS_DONE
  | ShipmentStatus.IMPORTING_DETAILS_DONE => some ShipmentStatus.CUSTOMS_IN_PROGRESS
  | ShipmentStatus.CUSTOMS_IN_PROGRESS => some ShipmentStatus.CUSTOMS_RECEIVED
  | ShipmentStatus.CUSTOMS_RECEIVED => none

/-- The condition under which the advance button is rendered
(client/src/pages/shipments/view.tsx, line 177:
`canAdvanceStatus() and getNextStatus()` both truthy). -/
def advanceButtonShown (status : ShipmentStatus) (auth : AuthView) : Bool :=
  canAdvanceStatus status auth && (getNextStatus status).isSome

end ShipTrack

namespace ShipTrack

/-- C1: the advance operation follows the fixed successor table
CREATED→IMPORTING_DETAILS_DONE→CUSTOMS_IN_PROGRESS→CUSTOMS_RECEIVED,
CUSTOMS_RECEIVED has no successor, and for a shipment in CUSTOMS_RECEIVED the
advance action is not offered to any user. -/
theorem advance_follows_successor_table :
    getNextStatus ShipmentStatus.CREATED = some ShipmentStatus.IMPORTING_DETAILS_DONE ∧
    getNextStatus ShipmentStatus.IMPORTING_DETAILS_DONE = some ShipmentStatus.CUSTOMS_IN_PROGRESS ∧
    getNextStatus ShipmentStatus.CUSTOMS_IN_PROGRESS = some ShipmentStatus.CUSTOMS_RECEIVED ∧
    getNextStatus ShipmentStatus.CUSTOMS_RECEIVED = none ∧
    ∀ user : Option Role, advanceButtonShown ShipmentStatus.CUSTOMS_RECEIVED (useAuth user) = false := by
  refine ⟨rfl, rfl, rfl, rfl, ?_⟩
  decide

/-- C2: advancing from CUSTOMS_IN_PROGRESS is permitted exactly for ADMIN;
advancing from CREATED or IMPORTING_DETAILS_DONE is permitted exactly for
ADMIN or OPERATOR; a VIEWER can never advance any shipment. -/
theorem advance_role_gate :
    (∀ user : Option Role,
      (canAdvanceStatus ShipmentStatus.CUSTOMS_IN_PROGRESS (useAuth user) = true ↔
        user = some Role.ADMIN) ∧
      (canAdvanceStatus ShipmentStatus.CREATED (useAuth user) = true ↔
        user = some Role.ADMIN ∨ user = some Role.OPERATOR) ∧
      (canAdvanceStatus ShipmentStatus.IMPORTING_DETAILS_DONE (useAuth user) = true ↔
        user = some Role.ADMIN ∨ user = some Role.OPERATOR)) ∧
    ∀ status : ShipmentStatus,
      canAdvanceStatus status (useAuth (some Role.VIEWER)) = false := by
  constructor
  · decide
  · decide

end ShipTrack

namespace ShipTrack

/-- A stored `shipment_items` row (schema `shipmentItems` table).
`pri` and `total` are `decimal` columns, modelled as exact rationals. -/
structure ShipmentItem where
  id : Nat
  shipmentId : Nat
  supplierId : Nat
  itemTypeId : Nat
  ctn : Nat
  pcsPerCtn : Nat
  cou : Nat
  pri : ℚ
  total : ℚ
deriving DecidableEq, Repr

/-- An `InsertShipmentItem` payload: every data column is optional in the
insert schema (each has a database default), so a client may or may not
supply it — including the derived `cou` and `total`. -/
structure InsertShipmentItem where
  shipmentId : Nat
  supplierId : Nat
  itemTypeId : Nat
  ctn : Option Nat := none
  pcsPerCtn : Option Nat := none
  cou : Option Nat := none
  pri : Option ℚ := none
  total : Option ℚ := none
deriving DecidableEq, Repr

/-- A `Partial InsertShipmentItem` patch used by `updateShipmentItem`. -/
structure PatchShipmentItem where
  supplierId : Option Nat := none
  itemTypeId : Option Nat := none
  ctn : Option Nat := none
  pcsPerCtn : Option Nat := none
  cou : Option Nat := none
  pri : Option ℚ := none
  total : Option ℚ := none
deriving DecidableEq, Repr

/-- `createShipmentItem` (server/storage.ts, lines 279-291): recomputes
`cou = (ctn or 0) * (pcsPerCtn or 0)` and `total = cou * (pri or 0)`, then
inserts the payload with those two fields overridden. `newId` stands for the
generated identity column. -/
def createShipmentItem (newId : Nat) (item : InsertShipmentItem) : ShipmentItem :=
  let cou := (item.ctn.getD 0) * (item.pcsPerCtn.getD 0)
  let total := (cou : ℚ) * (item.pri.getD 0)
  { id := newId
    shipmentId := item.shipmentId
    supplierId := item.supplierId
    itemTypeId := item.itemTypeId
    ctn := item.ctn.getD 0
    pcsPerCtn := item.pcsPerCtn.getD 0
    cou := cou
    pri := item.pri.getD 0
    total := total }

/-- `updateShipmentItem` (server/storage.ts, lines 293-309), given the
existing row: effective `ctn`, `pcsPerCtn`, `pri` fall back to the existing
row, `cou` and `total` are recomputed from the effective values, and the
update sets the patch fields with `cou`/`total` overridden. -/
def updateShipmentItem (existing : ShipmentItem) (item : PatchShipmentItem) : ShipmentItem :=
  let ctn := item.ctn.getD existing.ctn
  let pcsPerCtn := item.pcsPerCtn.getD existing.pcsPerCtn
  let pri := item.pri.getD existing.pri
  let cou := ctn * pcsPerCtn
  let total := (cou : ℚ) * pri
  { existing with
    supplierId := item.supplierId.getD existing.supplierId
    itemTypeId := item.itemTypeId.getD existing.itemTypeId
    ctn := ctn
    pcsPerCtn := pcsPerCtn
    cou := cou
    pri := pri
    total := total }

/-- A stored `importing_details` row. All money columns are `decimal`,
modelled as exact rationals. -/
structure ImportingDetails where
  shipmentId : Nat
  totalShipmentPrice : ℚ
  commissionPercent : ℚ
  commissionAmount : ℚ
  shipmentCost : ℚ
  shipmentSpaceM2 : ℚ
deriving DecidableEq, Repr

/-- An `InsertImportingDetails` payload: every data column is optional in
the insert schema (database default 0), including the derived
`commissionAmount` a client may try to supply. -/
structure InsertImportingDetails where
  shipmentId : Nat
  totalShipmentPrice : Option ℚ := none
  commissionPercent : Option ℚ := none
  commissionAmount : Option ℚ := none
  shipmentCost : Option ℚ := none
  shipmentSpaceM2 : Option ℚ := none
deriving DecidableEq, Repr

/-- `upsertImportingDetails` (server/storage.ts, lines 325-346): recomputes
`commissionAmount = (payload totalShipmentPrice or 0) * ((payload commissionPercent or 0) / 100)`
from the payload alone, then inserts the payload with `commissionAmount`
overridden (absent columns take the database default 0), or on conflict on
`shipmentId` updates only the fields present in the payload — an absent field
is retained from the existing row — again with `commissionAmount` overridden
by the payload-computed value. A client-supplied `commissionAmount` is thus
ignored on both branches, while on the conflict branch the stored
`totalShipmentPrice`/`commissionPercent` can come from the existing row even
though `commissionAmount` was computed from the payload defaults. -/
def upsertImportingDetails (existing : Option ImportingDetails)
    (details : InsertImportingDetails) : ImportingDetails :=
  let commissionAmount :=
    (details.totalShipmentPrice.getD 0) * ((details.commissionPercent.getD 0) / 100)
  match existing with
  | none =>
    { shipmentId := details.shipmentId
      totalShipmentPrice := details.totalShipmentPrice.getD 0
      commissionPercent := details.commissionPercent.getD 0
      commissionAmount := commissionAmount
      shipmentCost := details.shipmentCost.getD 0
      shipmentSpaceM2 := details.shipmentSpaceM2.getD 0 }
  | some e =>
    { shipmentId := details.shipmentId
      totalShipmentPrice := details.totalShipmentPrice.getD e.totalShipmentPrice
      commissionPercent := details.commissionPercent.getD e.commissionPercent
      commissionAmount := commissionAmount
      shipmentCost := details.shipmentCost.getD e.shipmentCost
      shipmentSpaceM2 := details.shipmentSpaceM2.getD e.shipmentSpaceM2 }

end ShipTrack

namespace ShipTrack

/-- C3: on both item write paths the stored `cou` is the effective
`ctn * pcsPerCtn` and the stored `total` is `cou * effective unit price`
(missing update fields falling back to the existing row), and the
client-supplied `cou`/`total` fields never influence the stored row. -/
theorem shipment_item_derived_fields_recomputed :
    (∀ (newId : Nat) (item : InsertShipmentItem),
      (createShipmentItem newId item).cou = (item.ctn.getD 0) * (item.pcsPerCtn.getD 0) ∧
      (createShipmentItem newId item).total =
        ((createShipmentItem newId item).cou : ℚ) * (item.pri.getD 0)) ∧
    (∀ (newId : Nat) (item : InsertShipmentItem) (c c' : Option Nat) (t t' : Option ℚ),
      createShipmentItem newId { item with cou := c, total := t } =
        createShipmentItem newId { item with cou := c', total := t' }) ∧
    (∀ (existing : ShipmentItem) (item : PatchShipmentItem),
      (updateShipmentItem existing item).cou =
        (item.ctn.getD existing.ctn) * (item.pcsPerCtn.getD existing.pcsPerCtn) ∧
      (updateShipmentItem existing item).total =
        ((updateShipmentItem existing item).cou : ℚ) * (item.pri.getD existing.pri)) ∧
    (∀ (existing : ShipmentItem) (item : PatchShipmentItem) (c c' : Option Nat) (t t' : Option ℚ),
      updateShipmentItem existing { item with cou := c, total := t } =
        updateShipmentItem existing { item with cou := c', total := t' }) := by
  refine ⟨fun newId item => ⟨rfl, rfl⟩, fun newId item c c' t t' => rfl,
    fun existing item => ⟨rfl, rfl⟩, fun existing item c c' t t' => rfl⟩

/-- Counterexample to C4: a conflict update whose payload carries only
`commissionPercent` 10 over an existing row with `totalShipmentPrice` 600
stores the retained 600 and the new 10, but `commissionAmount` 0 (computed
from the payload default 0), and 0 is not 600 * 10 / 100 — even though the
claim's range preconditions hold at this input. -/
theorem commission_amount_conflict_cex :
    (0:ℚ) ≤ (Option.some (10:ℚ)).getD 0 ∧ (Option.some (10:ℚ)).getD 0 ≤ 100 ∧
    (0:ℚ) ≤ (Option.none (α := ℚ)).getD 0 ∧
    (upsertImportingDetails
      (some { shipmentId := 7, totalShipmentPrice := 600, commissionPercent := 5,
              commissionAmount := 30, shipmentCost := 0, shipmentSpaceM2 := 0 })
      { shipmentId := 7, commissionPercent := some 10 }).totalShipmentPrice = 600 ∧
    (upsertImportingDetails
      (some { shipmentId := 7, totalShipmentPrice := 600, commissionPercent := 5,
              commissionAmount := 30, shipmentCost := 0, shipmentSpaceM2 := 0 })
      { shipmentId := 7, commissionPercent := some 10 }).commissionPercent = 10 ∧
    (upsertImportingDetails
      (some { shipmentId := 7, totalShipmentPrice := 600, commissionPercent := 5,
              commissionAmount := 30, shipmentCost := 0, shipmentSpaceM2 := 0 })
      { shipmentId := 7, commissionPercent := some 10 }).commissionAmount = 0 ∧
    (upsertImportingDetails
      (some { shipmentId := 7, totalShipmentPrice := 600, commissionPercent := 5,
              commissionAmount := 30, shipmentCost := 0, shipmentSpaceM2 := 0 })
      { shipmentId := 7, commissionPercent := some 10 }).commissionAmount ≠
      (upsertImportingDetails
        (some { shipmentId := 7, totalShipmentPrice := 600, commissionPercent := 5,
                commissionAmount := 30, shipmentCost := 0, shipmentSpaceM2 := 0 })
        { shipmentId := 7, commissionPercent := some 10 }).totalShipmentPrice *
        (upsertImportingDetails
          (some { shipmentId := 7, totalShipmentPrice := 600, commissionPercent := 5,
                  commissionAmount := 30, shipmentCost := 0, shipmentSpaceM2 := 0 })
          { shipmentId := 7, commissionPercent := some 10 }).commissionPercent / 100 := by
  refine ⟨by norm_num, by norm_num, by norm_num, rfl, rfl, ?_, ?_⟩
  · norm_num [upsertImportingDetails]
  · norm_num [upsertImportingDetails]

/-- C4 amended: for every upsert of importing details whose payload supplies
both `totalShipmentPrice` and `commissionPercent` (as the client importing
page always does), with `commissionPercent` in [0,100] and non-negative
`totalShipmentPrice`, `shipmentCost`, `shipmentSpaceM2`, the stored
`commissionAmount` equals `totalShipmentPrice * commissionPercent / 100` of
the stored row, over any existing row; with either field absent, a conflict
update computes `commissionAmount` from payload defaults of 0 while
retaining the existing values, and the relation can fail. -/
theorem commission_amount_formula (existing : Option ImportingDetails)
    (d : InsertImportingDetails)
    (hts : d.totalShipmentPrice.isSome = true) (hcp : d.commissionPercent.isSome = true)
    (hp0 : 0 ≤ d.commissionPercent.getD 0) (hp100 : d.commissionPercent.getD 0 ≤ 100)
    (ht : 0 ≤ d.totalShipmentPrice.getD 0) (hc : 0 ≤ d.shipmentCost.getD 0)
    (hs : 0 ≤ d.shipmentSpaceM2.getD 0) :
    (upsertImportingDetails existing d).commissionAmount =
      (upsertImportingDetails existing d).totalShipmentPrice *
        (upsertImportingDetails existing d).commissionPercent / 100 := by
  obtain ⟨tsp, hts'⟩ := Option.isSome_iff_exists.mp hts
  obtain ⟨cp, hcp'⟩ := Option.isSome_iff_exists.mp hcp
  cases existing <;> simp [upsertImportingDetails, hts', hcp', mul_div_assoc]

/-- Witness for the amended C4: the reference scenario, a full payload with
total price 600 at 5 percent commission over an existing row, stores
commissionAmount 30. -/
theorem commission_amount_formula_witness :
    (Option.some (600:ℚ)).isSome = true ∧ (Option.some (5:ℚ)).isSome = true ∧
    (0:ℚ) ≤ (Option.some (5:ℚ)).getD 0 ∧ (Option.some (5:ℚ)).getD 0 ≤ 100 ∧
    (upsertImportingDetails
      (some { shipmentId := 1, totalShipmentPrice := 0, commissionPercent := 0,
              commissionAmount := 0, shipmentCost := 0, shipmentSpaceM2 := 0 })
      { shipmentId := 1, totalShipmentPrice := some 600,
        commissionPercent := some 5 }).commissionAmount =
      (upsertImportingDetails
        (some { shipmentId := 1, totalShipmentPrice := 0, commissionPercent := 0,
                commissionAmount := 0, shipmentCost := 0, shipmentSpaceM2 := 0 })
        { shipmentId := 1, totalShipmentPrice := some 600,
          commissionPercent := some 5 }).totalShipmentPrice *
        (upsertImportingDetails
          (some { shipmentId := 1, totalShipmentPrice := 0, commissionPercent := 0,
                  commissionAmount := 0, shipmentCost := 0, shipmentSpaceM2 := 0 })
          { shipmentId := 1, totalShipmentPrice := some 600,
            commissionPercent := some 5 }).commissionPercent / 100 ∧
    (upsertImportingDetails
      (some { shipmentId := 1, totalShipmentPrice := 0, commissionPercent := 0,
              commissionAmount := 0, shipmentCost := 0, shipmentSpaceM2 := 0 })
      { shipmentId := 1, totalShipmentPrice := some 600,
        commissionPercent := some 5 }).commissionAmount = 30 := by
  refine ⟨rfl, rfl, by norm_num, by norm_num, ?_, ?_⟩
  · exact commission_amount_formula
      (some { shipmentId := 1, totalShipmentPrice := 0, commissionPercent := 0,
              commissionAmount := 0, shipmentCost := 0, shipmentSpaceM2 := 0 })
      { shipmentId := 1, totalShipmentPrice := some 600, commissionPercent := some 5 }
      rfl rfl (by norm_num) (by norm_num) (by norm_num) (by norm_num) (by norm_num)
  · norm_num [upsertImportingDetails]

end ShipTrack

namespace ShipTrack

/-- A stored `customs` row. `billDate` is a nullable date column, modelled as
an optional day code; the three piece counters are signed integer columns. -/
structure Customs where
  shipmentId : Nat
  billDate : Option Nat := none
  totalPiecesRecorded : Int
  totalPiecesAdjusted : Int
  lossOrDamagePieces : Int
deriving DecidableEq, Repr

/-- An `InsertCustoms` payload. The outer `Option` on `billDate` is field
presence (an absent key leaves the column alone on conflict-update); the
inner one is SQL null. The counters default to 0 on insert when absent. -/
structure InsertCustoms where
  shipmentId : Nat
  billDate : Option (Option Nat) := none
  totalPiecesRecorded : Option Int := none
  totalPiecesAdjusted : Option Int := none
  lossOrDamagePieces : Option Int := none
deriving DecidableEq, Repr

/-- `upsertCustoms` (server/storage.ts, lines 364-377): inserts the payload
(absent columns take the database default 0 / null), or on conflict on
`shipmentId` updates only the fields present in the payload, leaving the
rest of the existing row unchanged. No field is recomputed here. -/
def upsertCustoms (existing : Option Customs) (d : InsertCustoms) : Customs :=
  match existing with
  | none =>
    { shipmentId := d.shipmentId
      billDate := (d.billDate.getD none)
      totalPiecesRecorded := d.totalPiecesRecorded.getD 0
      totalPiecesAdjusted := d.totalPiecesAdjusted.getD 0
      lossOrDamagePieces := d.lossOrDamagePieces.getD 0 }
  | some e =>
    { shipmentId := d.shipmentId
      billDate := (d.billDate.getD e.billDate)
      totalPiecesRecorded := d.totalPiecesRecorded.getD e.totalPiecesRecorded
      totalPiecesAdjusted := d.totalPiecesAdjusted.getD e.totalPiecesAdjusted
      lossOrDamagePieces := d.lossOrDamagePieces.getD e.lossOrDamagePieces }

/-- Sum of the stored `cou` values over a list of shipment items. -/
def sumCou (items : List ShipmentItem) : Nat :=
  (items.map (fun it => it.cou)).sum

/-- Modelled from the spec: the server route handler (server/routes.ts, which
is not present under src/) that creates the Customs record when the shipment
first reaches CUSTOMS_RECEIVED. Per the spec it is a one-time computation at
the moment Customs is first created, seeding `totalPiecesRecorded` with the
sum of the item `cou` values at that moment; an already-existing record is
left untouched. The write itself goes through the source `upsertCustoms`. -/
def createCustomsOnReceive (shipmentId : Nat) (items : List ShipmentItem)
    (existing : Option Customs) : Customs :=
  match existing with
  | some e => e
  | none =>
    upsertCustoms none
      { shipmentId := shipmentId
        totalPiecesRecorded := some ((sumCou items : Int)) }

/-- The per-shipment state touched by the customs workflow: the current
status, the shipment's item rows and its optional customs row. -/
structure ShipmentState where
  shipmentId : Nat
  status : ShipmentStatus
  items : List ShipmentItem
  customs : Option Customs
deriving DecidableEq, Repr

/-- Reaching CUSTOMS_RECEIVED: the status is set and the customs record is
created (once) with the seeded snapshot. -/
def receiveCustoms (st : ShipmentState) : ShipmentState :=
  { st with
    status := ShipmentStatus.CUSTOMS_RECEIVED
    customs := some (createCustomsOnReceive st.shipmentId st.items st.customs) }

/-- An item edit applied to the state: `updateShipmentItem` rewrites the
matching `shipment_items` row and touches no other table. -/
def applyItemEdit (st : ShipmentState) (id : Nat) (p : PatchShipmentItem) : ShipmentState :=
  { st with
    items := st.items.map (fun it => if it.id = id then updateShipmentItem it p else it) }

/-- The reference scenario item: ctn 10, pcsPerCtn 24, unit price 2.50,
inserted through `createShipmentItem`. -/
def referenceItem : ShipmentItem :=
  createShipmentItem 1
    { shipmentId := 7, supplierId := 1, itemTypeId := 1,
      ctn := some 10, pcsPerCtn := some 24, pri := some (5/2 : ℚ) }

/-- The reference scenario state just before customs are received. -/
def referenceState : ShipmentState :=
  { shipmentId := 7
    status := ShipmentStatus.CUSTOMS_IN_PROGRESS
    items := [referenceItem]
    customs := none }

end ShipTrack

namespace ShipTrack

/-- An item edit rewrites only the `shipment_items` table; the customs row
of the state is untouched. -/
lemma applyItemEdit_customs (s : ShipmentState) (id : Nat) (p : PatchShipmentItem) :
    (applyItemEdit s id p).customs = s.customs := rfl

/-- A whole sequence of item edits leaves the customs row unchanged. -/
lemma foldl_applyItemEdit_customs (edits : List (Nat × PatchShipmentItem))
    (s : ShipmentState) :
    (edits.foldl (fun s e => applyItemEdit s e.1 e.2) s).customs = s.customs := by
  induction edits generalizing s with
  | nil => rfl
  | cons e rest ih => simpa [applyItemEdit_customs] using ih (applyItemEdit s e.1 e.2)

/-- C6: when the customs record is first created on reaching
CUSTOMS_RECEIVED, its `totalPiecesRecorded` is seeded with the sum of the
item `cou` values at that moment, and no later sequence of item edits
changes the customs row; in the reference scenario (one item with ctn 10 and
pcsPerCtn 24) the created record has `totalPiecesRecorded` 240. -/
theorem customs_seeded_snapshot (st : ShipmentState) (h : st.customs = none) :
    ((receiveCustoms st).customs.map (fun c => c.totalPiecesRecorded) =
      some ((sumCou st.items : Int))) ∧
    (∀ edits : List (Nat × PatchShipmentItem),
      (edits.foldl (fun s e => applyItemEdit s e.1 e.2) (receiveCustoms st)).customs =
        (receiveCustoms st).customs) ∧
    ((receiveCustoms referenceState).customs.map (fun c => c.totalPiecesRecorded) =
      some 240) := by
  refine ⟨?_, ?_, ?_⟩
  · simp [receiveCustoms, createCustomsOnReceive, upsertCustoms, h]
  · intro edits
    exact foldl_applyItemEdit_customs edits (receiveCustoms st)
  · rfl

/-- Witness for C6: the snapshot theorem applied to the concrete reference
state, whose customs slot is empty. -/
theorem customs_seeded_snapshot_witness :
    referenceState.customs = none ∧
    ((receiveCustoms referenceState).customs.map (fun c => c.totalPiecesRecorded) =
      some ((sumCou referenceState.items : Int))) := by
  refine ⟨rfl, ?_⟩
  exact (customs_seeded_snapshot referenceState rfl).1

end ShipTrack

namespace ShipTrack

/-- What the customs page renders, from the status branch of `CustomsPage`
(client/src/pages/shipments/customs.tsx, lines 163-192): the full customs
form, the explicit in-progress message, or the generic
only-available-after-received message. -/
inductive CustomsPageView
  | rendered
  | inProgressMessage
  | notAvailableMessage
deriving DecidableEq, Repr

/-- The status branch of `CustomsPage`: any status other than
CUSTOMS_RECEIVED short-circuits to a message card, with the wording chosen
by whether the status is CUSTOMS_IN_PROGRESS. -/
def customsPageView (status : ShipmentStatus) : CustomsPageView :=
  if status ≠ ShipmentStatus.CUSTOMS_RECEIVED then
    if status = ShipmentStatus.CUSTOMS_IN_PROGRESS then CustomsPageView.inProgressMessage
    else CustomsPageView.notAvailableMessage
  else CustomsPageView.rendered

/-- The `enabled` flag of the customs query in `CustomsPage`
(client/src/pages/shipments/customs.tsx, lines 63-66): customs data are
fetched only when the shipment status is CUSTOMS_RECEIVED. -/
def customsQueryEnabled (status : ShipmentStatus) : Bool :=
  status = ShipmentStatus.CUSTOMS_RECEIVED

/-- The customs card description on the shipment view page
(client/src/pages/shipments/view.tsx, lines 258-264). -/
inductive CustomsCardDescription
  | available
  | inProgress
  | notStarted
deriving DecidableEq, Repr

/-- The customs card description branch of `ShipmentView`. -/
def customsCardDescription (status : ShipmentStatus) : CustomsCardDescription :=
  if status = ShipmentStatus.CUSTOMS_RECEIVED then CustomsCardDescription.available
  else if status = ShipmentStatus.CUSTOMS_IN_PROGRESS then CustomsCardDescription.inProgress
  else CustomsCardDescription.notStarted

/-- `lossOrDamagePieces` as computed by the customs page
(client/src/pages/shipments/customs.tsx, line 103): recorded minus adjusted,
on plain signed integers. -/
def lossOrDamage (recorded adjusted : Int) : Int :=
  recorded - adjusted

/-- The payload the customs page saves (client/src/pages/shipments/customs.tsx,
`saveMutation`, lines 108-124): bill date, the adjusted count and the derived
loss-or-damage; `totalPiecesRecorded` is not part of the payload. The
recorded count it uses is the fetched row's value (0 when absent). -/
def customsSavePayload (shipmentId : Nat) (fetched : Option Customs)
    (billDate : Option Nat) (adjusted : Int) : InsertCustoms :=
  let recorded := (fetched.map (fun c => c.totalPiecesRecorded)).getD 0
  { shipmentId := shipmentId
    billDate := some billDate
    totalPiecesAdjusted := some adjusted
    lossOrDamagePieces := some (lossOrDamage recorded adjusted) }

end ShipTrack

namespace ShipTrack

/-- C5: customs data are fetched and the customs form rendered exactly when
the shipment status is CUSTOMS_RECEIVED; at CUSTOMS_IN_PROGRESS the page
shows the in-progress not-yet-available message (and fetches nothing), and
at the earlier statuses CREATED and IMPORTING_DETAILS_DONE the page shows
the generic not-available message while the shipment view card reads
not started. -/
theorem customs_gate_by_status :
    (∀ status : ShipmentStatus,
      (customsQueryEnabled status = true ↔ status = ShipmentStatus.CUSTOMS_RECEIVED) ∧
      (customsPageView status = CustomsPageView.rendered ↔
        status = ShipmentStatus.CUSTOMS_RECEIVED)) ∧
    customsPageView ShipmentStatus.CUSTOMS_IN_PROGRESS = CustomsPageView.inProgressMessage ∧
    customsQueryEnabled ShipmentStatus.CUSTOMS_IN_PROGRESS = false ∧
    customsPageView ShipmentStatus.CREATED = CustomsPageView.notAvailableMessage ∧
    customsPageView ShipmentStatus.IMPORTING_DETAILS_DONE = CustomsPageView.notAvailableMessage ∧
    customsCardDescription ShipmentStatus.CREATED = CustomsCardDescription.notStarted ∧
    customsCardDescription ShipmentStatus.IMPORTING_DETAILS_DONE =
      CustomsCardDescription.notStarted ∧
    customsCardDescription ShipmentStatus.CUSTOMS_IN_PROGRESS =
      CustomsCardDescription.inProgress ∧
    customsCardDescription ShipmentStatus.CUSTOMS_RECEIVED =
      CustomsCardDescription.available := by
  decide

/-- C7: the loss-or-damage count saved with a customs row equals recorded
minus adjusted — both as the page computes it and as it lands in the stored
row through `upsertCustoms` — and the difference is not clamped: at the
concrete input recorded 240, adjusted 250, the stored value is the negative
-10. -/
theorem loss_or_damage_difference :
    (∀ recorded adjusted : Int, lossOrDamage recorded adjusted = recorded - adjusted) ∧
    (∀ (e : Customs) (shipmentId : Nat) (billDate : Option Nat) (adjusted : Int),
      (upsertCustoms (some e)
        (customsSavePayload shipmentId (some e) billDate adjusted)).lossOrDamagePieces =
        e.totalPiecesRecorded - adjusted) ∧
    (250:Int) > 240 ∧ lossOrDamage 240 250 = -10 ∧ lossOrDamage 240 250 < 0 := by
  refine ⟨fun recorded adjusted => rfl, fun e shipmentId billDate adjusted => rfl,
    by norm_num, by norm_num [lossOrDamage], by norm_num [lossOrDamage]⟩

end ShipTrack

namespace ShipTrack

/-- The spec calculator `lineTotal(ctn, pcsPerCtn, unitPrice) =
(ctn * pcsPerCtn) * unitPrice` applied to a stored item row. -/
def lineTotal (it : ShipmentItem) : ℚ :=
  ((it.ctn * it.pcsPerCtn : Nat) : ℚ) * it.pri

/-- Sum of `lineTotal` over the items of a shipment. -/
def sumLineTotal (items : List ShipmentItem) : ℚ :=
  (items.map lineTotal).sum

/-- The `totalShipmentPrice` computed by the client importing page
(client/src/pages/shipments/importing.tsx, lines 75-78): a left fold summing
the stored `total` of each item row. -/
def clientTotalShipmentPrice (items : List ShipmentItem) : ℚ :=
  items.foldl (fun sum it => sum + it.total) 0

/-- Folding item totals from any accumulator is the accumulator plus the sum
of the totals. -/
lemma foldl_add_totals (items : List ShipmentItem) (a : ℚ) :
    items.foldl (fun sum it => sum + it.total) a =
      a + (items.map (fun it => it.total)).sum := by
  induction items generalizing a with
  | nil => simp
  | cons x xs ih => simp [ih (a + x.total), add_assoc]

/-- When every row's stored `total` agrees with the spec `lineTotal`, the sum
of stored totals is the sum of line totals. -/
lemma sum_totals_eq_sumLineTotal (items : List ShipmentItem)
    (h : ∀ it ∈ items, it.total = lineTotal it) :
    (items.map (fun it => it.total)).sum = sumLineTotal items := by
  induction items with
  | nil => rfl
  | cons x xs ih =>
    have hx := h x (by simp)
    have hxs : ∀ it ∈ xs, it.total = lineTotal it := fun it hit => h it (by simp [hit])
    simp [sumLineTotal, hx, ih hxs]

end ShipTrack

namespace ShipTrack

/-- Counterexample to C8: `upsertImportingDetails` stores whatever
`totalShipmentPrice` the caller supplies, on the insert branch and on the
conflict branch alike. With the reference item (line total 600) and a
caller-supplied totalShipmentPrice of 999, the stored value is 999, not the
items' 600. -/
theorem total_price_not_recomputed_cex :
    (upsertImportingDetails none
      { shipmentId := 7, totalShipmentPrice := some 999,
        commissionPercent := some 5 }).totalShipmentPrice = 999 ∧
    (upsertImportingDetails
      (some { shipmentId := 7, totalShipmentPrice := 600, commissionPercent := 5,
              commissionAmount := 30, shipmentCost := 0, shipmentSpaceM2 := 0 })
      { shipmentId := 7, totalShipmentPrice := some 999,
        commissionPercent := some 5 }).totalShipmentPrice = 999 ∧
    sumLineTotal [referenceItem] = 600 ∧
    (upsertImportingDetails none
      { shipmentId := 7, totalShipmentPrice := some 999,
        commissionPercent := some 5 }).totalShipmentPrice ≠
      sumLineTotal [referenceItem] := by
  refine ⟨rfl, rfl, ?_, ?_⟩
  · norm_num [sumLineTotal, lineTotal, referenceItem, createShipmentItem]
  · norm_num [upsertImportingDetails, sumLineTotal, lineTotal, referenceItem,
      createShipmentItem]

/-- C8 amended: the storage upsert never derives `totalShipmentPrice` from
the shipment's items — it stores the caller-supplied value when present, and
when absent stores the database default 0 on first insert or retains the
existing row's value on a conflict update; the derivation from the items
happens on the client importing page, whose submitted value is the fold of
the stored item totals, and that fold equals the sum of spec line totals
whenever each stored row satisfies the `total = lineTotal` invariant. -/
theorem total_price_caller_supplied (items : List ShipmentItem)
    (h : ∀ it ∈ items, it.total = lineTotal it) :
    (∀ d : InsertImportingDetails,
      (upsertImportingDetails none d).totalShipmentPrice = d.totalShipmentPrice.getD 0) ∧
    (∀ (e : ImportingDetails) (d : InsertImportingDetails),
      (upsertImportingDetails (some e) d).totalShipmentPrice =
        d.totalShipmentPrice.getD e.totalShipmentPrice) ∧
    clientTotalShipmentPrice items = sumLineTotal items := by
  refine ⟨fun d => rfl, fun e d => rfl, ?_⟩
  calc clientTotalShipmentPrice items
      = 0 + (items.map (fun it => it.total)).sum := foldl_add_totals items 0
    _ = (items.map (fun it => it.total)).sum := by rw [zero_add]
    _ = sumLineTotal items := sum_totals_eq_sumLineTotal items h

/-- Witness for the amended C8: applied to the single reference item, whose
stored total 600 agrees with its line total, the client sum is 600 and the
upsert stores a supplied 999 unchanged on a first insert. -/
theorem total_price_caller_supplied_witness :
    (∀ it ∈ [referenceItem], it.total = lineTotal it) ∧
    clientTotalShipmentPrice [referenceItem] = sumLineTotal [referenceItem] ∧
    (upsertImportingDetails none
      { shipmentId := 7, totalShipmentPrice := some 999,
        commissionPercent := some 5 }).totalShipmentPrice = (some (999:ℚ)).getD 0 := by
  have h : ∀ it ∈ [referenceItem], it.total = lineTotal it := by
    intro it hit
    simp only [List.mem_singleton] at hit
    subst hit
    norm_num [referenceItem, createShipmentItem, lineTotal]
  have main := total_price_caller_supplied [referenceItem] h
  exact ⟨h, main.2.2,
    main.1 { shipmentId := 7, totalShipmentPrice := some 999, commissionPercent := some 5 }⟩

end ShipTrack

namespace ShipTrack

/-- A stored `suppliers` row. -/
structure Supplier where
  id : Nat
  name : String
  contactInfo : Option String := none
  defaultCountry : Option String := none
deriving DecidableEq, Repr

/-- A stored `item_types` row. -/
structure ItemType where
  id : Nat
  name : String
  description : Option String := none
deriving DecidableEq, Repr

/-- A stored `shipments` row (workflow-relevant columns). -/
structure Shipment where
  id : Nat
  shipmentName : String
  shipmentNumber : String
  backendMasterKey : String
  status : ShipmentStatus
deriving DecidableEq, Repr

/-- `deleteSupplier` (server/storage.ts, lines 153-156): issues the delete
for the id and returns `true` without inspecting the result. -/
def deleteSupplier (tbl : List Supplier) (id : Nat) : List Supplier × Bool :=
  (tbl.filter (fun r => r.id != id), true)

/-- `deleteItemType` (server/storage.ts, lines 182-185): same shape. -/
def deleteItemType (tbl : List ItemType) (id : Nat) : List ItemType × Bool :=
  (tbl.filter (fun r => r.id != id), true)

/-- `deleteShipment` (server/storage.ts, lines 252-255): same shape. -/
def deleteShipment (tbl : List Shipment) (id : Nat) : List Shipment × Bool :=
  (tbl.filter (fun r => r.id != id), true)

/-- `deleteShipmentItem` (server/storage.ts, lines 311-314): same shape. -/
def deleteShipmentItem (tbl : List ShipmentItem) (id : Nat) : List ShipmentItem × Bool :=
  (tbl.filter (fun r => r.id != id), true)

end ShipTrack

namespace ShipTrack

/-- C10: the four storage delete operations return `true` for every table
state and id — the result does not depend on the table contents at all, so
deleting a present entity and deleting a missing one are indistinguishable
from the returned value. -/
theorem delete_returns_true_unconditionally :
    (∀ (tbl : List Supplier) (id : Nat), (deleteSupplier tbl id).2 = true) ∧
    (∀ (tbl : List ItemType) (id : Nat), (deleteItemType tbl id).2 = true) ∧
    (∀ (tbl : List Shipment) (id : Nat), (deleteShipment tbl id).2 = true) ∧
    (∀ (tbl : List ShipmentItem) (id : Nat), (deleteShipmentItem tbl id).2 = true) ∧
    (∀ (tbl tbl' : List Supplier) (id : Nat),
      (deleteSupplier tbl id).2 = (deleteSupplier tbl' id).2) ∧
    (∀ (tbl tbl' : List ItemType) (id : Nat),
      (deleteItemType tbl id).2 = (deleteItemType tbl' id).2) ∧
    (∀ (tbl tbl' : List Shipment) (id : Nat),
      (deleteShipment tbl id).2 = (deleteShipment tbl' id).2) ∧
    (∀ (tbl tbl' : List ShipmentItem) (id : Nat),
      (deleteShipmentItem tbl id).2 = (deleteShipmentItem tbl' id).2) := by
  exact ⟨fun tbl id => rfl, fun tbl id => rfl, fun tbl id => rfl, fun tbl id => rfl,
    fun tbl tbl' id => rfl, fun tbl tbl' id => rfl, fun tbl tbl' id => rfl,
    fun tbl tbl' id => rfl⟩

end ShipTrack
